import Mathlib

/-!
Shallow embedding of the USB printer adapter (`src/packages/usb/src/index.ts`)
and proofs about its behaviour.

The adapter is a thin class over a host USB subsystem.  We embed each method as
a pure Lean function from the relevant part of the adapter / host state to the
trace of observable actions it performs (events emitted, callback invocations,
host-level calls), together with the updated state.  Host-dependent outcomes
(whether `claim()` throws, whether a kernel driver is active, whether a bulk
transfer fails, ...) are recorded as fields of the embedded device / interface
values, so a single Lean function covers every host behaviour.
-/

namespace EscposUsb

/-- Interface descriptor entry as seen by `findPrinter` (`bInterfaceClass`). -/
structure ConfDesc where
  bInterfaceClass : Nat
deriving DecidableEq, Repr

/-- Endpoint of a claimed interface.  In the source, `endpoint.direction` is the
string `"out"` or `"in"`; `epId` distinguishes physical endpoints. -/
structure Ep where
  direction : String
  epId : Nat
deriving DecidableEq, Repr

/-- One USB interface as the `open()` loop sees it: whether a kernel driver is
active, whether `detachKernelDriver()` would throw, whether `claim()` would
throw (for instance `LIBUSB_ERROR_ACCESS`), and its endpoint list. -/
structure Iface where
  kernelDriverActive : Bool
  detachThrows : Bool
  claimThrows : Bool
  endpoints : List Ep
deriving DecidableEq, Repr

/-- A USB device handle as the adapter sees it.  `descriptorThrows` models a
device whose `configDescriptor` access throws during enumeration;
`configDescriptor` is `none` when the property is `undefined` (the source reads
it with optional chaining).  `openThrows` / `closeThrows` record whether the
host-level `device.open()` / `device.close()` call would throw. -/
structure UsbDevice where
  busId : Nat
  vendorId : Nat
  productId : Nat
  descriptorThrows : Bool
  configDescriptor : Option (List (List ConfDesc))
  openThrows : Bool
  closeThrows : Bool
  interfaces : List Iface
deriving DecidableEq, Repr

/-- Errors that escape synchronously from an adapter method. -/
inductive JsError where
  /-- property access on a `null`/`undefined` reference -/
  | typeError
  /-- the host-level `device.open()` call threw -/
  | deviceOpenFailed
deriving DecidableEq, Repr

/-- USB class code filtered for by `findPrinter` (`IFACE_CLASS.PRINTER`). -/
def PRINTER : Nat := 0x07

/-- Truthiness of the `filter` predicate in `findPrinter`: the device's
`configDescriptor?.interfaces` has a member (an alternate-setting list) that in
turn has a member whose `bInterfaceClass` equals `PRINTER`; a thrown descriptor
inspection is caught and yields `false`. -/
def printerCheck (d : UsbDevice) : Bool :=
  if d.descriptorThrows then false
  else
    match d.configDescriptor with
    | none => false
    | some ifaces =>
      ((ifaces.filter
          (fun ifc => (ifc.filter (fun c => c.bInterfaceClass == PRINTER)).length != 0)).length != 0)

/-- Static `USBAdapter.findPrinter()` over an explicit attached-device list. -/
def findPrinter (devices : List UsbDevice) : List UsbDevice :=
  devices.filter printerCheck

/-- Auto-discovery at construction: first device kept by `findPrinter`. -/
def autoSelect (devices : List UsbDevice) : Option UsbDevice :=
  (findPrinter devices).head?

/-- The `usb` library's `findByIds`: first attached device with the given
vendor and product ids, `undefined` when there is none. -/
def findByIds (devices : List UsbDevice) (vid pid : Nat) : Option UsbDevice :=
  devices.find? (fun d => d.vendorId == vid && d.productId == pid)

/-- Static `USBAdapter.getDevice(vid, pid)`: resolves with the raw device
(after a host-level open) or with `undefined` when no device matches; rejects
only when `device?.open()` throws. -/
def getDevice (devices : List UsbDevice) (vid pid : Nat) : Except JsError (Option UsbDevice) :=
  match findByIds devices vid pid with
  | none => Except.ok none
  | some d => if d.openThrows then Except.error JsError.deviceOpenFailed else Except.ok (some d)

/-- Observable actions performed while `open()` runs its per-interface
callbacks: the suppressed kernel-driver log line, the `connect` emission, and
the three ways the open callback is invoked. -/
inductive OpenEv where
  /-- `console.error` line when `detachKernelDriver()` throws -/
  | logDetachError
  /-- `self.emit("connect", self.device)` -/
  | emitConnect
  /-- `callback(null)` -/
  | cbOk
  /-- `callback(err)` from the catch block around the per-interface body -/
  | cbClaimError
  /-- `callback(new Error("Can not find endpoint from printer"))` -/
  | cbEndpointNotFound
deriving DecidableEq, Repr

/-- Mutable adapter fields touched by `open()`: the write endpoint slot
`self.endpoint`, the read endpoint slot `self.deviceToPcEndpoint`, and the
completion counter local to the call. -/
structure OpenState where
  endpoint : Option Ep
  deviceToPcEndpoint : Option Ep
  counter : Nat
deriving DecidableEq, Repr

/-- State at the start of an `open()` call on a fresh adapter. -/
def initState : OpenState :=
  { endpoint := none, deviceToPcEndpoint := none, counter := 0 }

/-- First `if` of the `iface.endpoints.filter` body: an `"out"` endpoint fills
the write slot `self.endpoint` when it is still empty. -/
def setOutSlot (s : OpenState) (e : Ep) : OpenState :=
  if e.direction = "out" ∧ s.endpoint = none then { s with endpoint := some e } else s

/-- Second `if` of the `iface.endpoints.filter` body: an `"in"` endpoint fills
the read slot `self.deviceToPcEndpoint` when it is still empty. -/
def setInSlot (s : OpenState) (e : Ep) : OpenState :=
  if e.direction = "in" ∧ s.deviceToPcEndpoint = none then
    { s with deviceToPcEndpoint := some e }
  else s

/-- The `iface.endpoints.filter` body applied to one endpoint. -/
def assignStep (s : OpenState) (e : Ep) : OpenState :=
  setInSlot (setOutSlot s e) e

/-- The whole `iface.endpoints.filter` pass over an interface's endpoints. -/
def assignEndpoints (s : OpenState) (eps : List Ep) : OpenState :=
  eps.foldl assignStep s

/-- Kernel-driver handling on one interface: skipped on `"win32"`; a failing
`detachKernelDriver()` is caught and logged only. -/
def kdLog (platform : String) (ifc : Iface) : List OpenEv :=
  if platform ≠ "win32" ∧ ifc.kernelDriverActive = true ∧ ifc.detachThrows = true then
    [OpenEv.logDetachError]
  else []

/-- Body of one interface's `setAltSetting` callback.  `total` is
`self.device.interfaces.length`.  A `claim()` throw is caught and handed to
the open callback; otherwise endpoints are classified, and either `connect` is
emitted with a success callback (write slot filled) or the completion counter
is bumped, the last finisher without a write endpoint reporting the
endpoint-not-found error. -/
def processIface (platform : String) (total : Nat) (s : OpenState) (ifc : Iface) :
    OpenState × List OpenEv :=
  if ifc.claimThrows then
    (s, kdLog platform ifc ++ [OpenEv.cbClaimError])
  else
    let s1 := assignEndpoints s ifc.endpoints
    if s1.endpoint.isSome then
      (s1, kdLog platform ifc ++ [OpenEv.emitConnect, OpenEv.cbOk])
    else
      let s2 := { s1 with counter := s1.counter + 1 }
      if s2.counter = total ∧ s2.endpoint = none then
        (s2, kdLog platform ifc ++ [OpenEv.cbEndpointNotFound])
      else (s2, kdLog platform ifc)

/-- Run the per-interface callbacks in the order the event loop fires them
(`sched` is the interfaces in completion order), threading the shared adapter
state and concatenating the action traces. -/
def runInterfaces (platform : String) (total : Nat) :
    OpenState → List Iface → OpenState × List OpenEv
  | s, [] => (s, [])
  | s, ifc :: rest =>
    let r1 := processIface platform total s ifc
    let r2 := runInterfaces platform total r1.1 rest
    (r2.1, r1.2 ++ r2.2)

/-- The whole `open()` call.  `this.device.open()` runs outside any try/catch:
with a `null` device reference the property access throws a `TypeError`, and a
host-level open failure propagates, both synchronously.  Otherwise the
per-interface work is scheduled and `sched` records the order in which the
`setAltSetting` callbacks complete. -/
def openCall (platform : String) (device : Option UsbDevice) (sched : List Iface) :
    Except JsError (OpenState × List OpenEv) :=
  match device with
  | none => Except.error JsError.typeError
  | some d =>
    if d.openThrows then Except.error JsError.deviceOpenFailed
    else Except.ok (runInterfaces platform d.interfaces.length initState sched)

/-- Observable actions of a `close()` call. -/
inductive CloseEv where
  /-- the host-level `device.close()` ran on an actual device -/
  | hostClose
  /-- `usb.removeAllListeners("detach")` -/
  | removeDetachListeners
  /-- `callback(null)` -/
  | cbOk
  /-- `callback(err)` where `err` is the `TypeError` thrown by reading
  `close` off the `null` device reference -/
  | cbTypeError
  /-- `callback(err)` where `err` came from `device.close()` throwing -/
  | cbCloseError
  /-- `self.emit("close", this.device)` -/
  | emitClose
deriving DecidableEq, Repr

/-- The `close()` call over the adapter's device reference.  The `null` guard
invokes the callback with success but does not return, so execution continues
into the try block, where `this.device.close()` on `null` throws a `TypeError`
that the catch hands to the callback as well.  `this.device` itself is never
reassigned by `close()`. -/
def closeCall (device : Option UsbDevice) : List CloseEv :=
  (if device.isNone then [CloseEv.cbOk] else []) ++
    match device with
    | none => [CloseEv.cbTypeError]
    | some d =>
      if d.closeThrows then [CloseEv.hostClose, CloseEv.cbCloseError]
      else [CloseEv.hostClose, CloseEv.removeDetachListeners, CloseEv.cbOk, CloseEv.emitClose]

/-- Lifecycle events emitted by the constructor's `usb.on("detach", ...)`
listener. -/
inductive LifeEv where
  /-- `self.emit("detach", device)` -/
  | emitDetach
  /-- `self.emit("disconnect", device)` -/
  | emitDisconnect
deriving DecidableEq, Repr

/-- The detach listener: when the notified device is the owned one, emit
`detach` then `disconnect` and clear `self.device`; otherwise do nothing. -/
def onDetach (owned : Option UsbDevice) (notified : UsbDevice) :
    Option UsbDevice × List LifeEv :=
  match owned with
  | some d =>
    if notified = d then (none, [LifeEv.emitDetach, LifeEv.emitDisconnect])
    else (some d, [])
  | none => (none, [])

/-- Payload handed to `write()` (a byte buffer). -/
abbrev ByteData : Type := List Nat

/-- Observable actions of a `write()` call. -/
inductive WriteEv where
  /-- `this.emit("data", data)` with the payload -/
  | emitData (payload : ByteData)
  /-- the bulk transfer `this.endpoint.transfer(data, callback)` started -/
  | transferOut (payload : ByteData)
  /-- the transfer completion invoked `callback` with the host's outcome
  (`none` on success) -/
  | cb (error : Option Nat)
deriving DecidableEq, Repr

/-- The `write()` call.  The `data` event is emitted first, unconditionally;
then `this.endpoint.transfer` is invoked — a `TypeError` when no write
endpoint was ever bound (`this.endpoint` is `undefined`), otherwise a bulk
transfer whose `transferResult` (`none` for success) is handed to the
callback. -/
def writeCall (endpoint : Option Ep) (transferResult : Option Nat) (data : ByteData) :
    List WriteEv × Option JsError :=
  match endpoint with
  | none => ([WriteEv.emitData data], some JsError.typeError)
  | some _ =>
    ([WriteEv.emitData data, WriteEv.transferOut data, WriteEv.cb transferResult], none)

/-- Sample write endpoint. -/
def epOut : Ep := { direction := "out", epId := 1 }

/-- Sample read endpoint. -/
def epIn : Ep := { direction := "in", epId := 2 }

/-- Interface exposing one `"out"` endpoint; claim succeeds. -/
def ifaceOut : Iface :=
  { kernelDriverActive := false, detachThrows := false, claimThrows := false,
    endpoints := [epOut] }

/-- Interface exposing one `"in"` endpoint; claim succeeds. -/
def ifaceIn : Iface :=
  { kernelDriverActive := false, detachThrows := false, claimThrows := false,
    endpoints := [epIn] }

/-- Interface whose `claim()` throws. -/
def ifaceBad : Iface :=
  { kernelDriverActive := false, detachThrows := false, claimThrows := true,
    endpoints := [] }

/-- Sample device handle around a given interface list. -/
def sampleDevice (ifs : List Iface) : UsbDevice :=
  { busId := 1, vendorId := 0x04b8, productId := 0x0202,
    descriptorThrows := false, configDescriptor := none,
    openThrows := false, closeThrows := false, interfaces := ifs }

/-- Sample device whose host-level `open()` throws. -/
def dOpenFails : UsbDevice :=
  { sampleDevice [] with openThrows := true }

/-- Sample device whose single interface exposes only an `"in"` endpoint. -/
def dNoOut : UsbDevice := sampleDevice [ifaceIn]

theorem printerCheck_iff (d : UsbDevice) :
    printerCheck d = true ↔
      d.descriptorThrows = false ∧
        ∃ cfg, d.configDescriptor = some cfg ∧
          ∃ ifc ∈ cfg, ∃ c ∈ ifc, c.bInterfaceClass = PRINTER := by
  unfold printerCheck
  by_cases hthrow : d.descriptorThrows
  · simp [hthrow]
  · simp only [hthrow, if_false]
    cases hcfg : d.configDescriptor with
    | none => simp
    | some ifaces =>
      simp only [hcfg, Option.some.injEq]
      constructor
      · intro h
        refine ⟨by simp [hthrow], ifaces, rfl, ?_⟩
        have h1 : (ifaces.filter
            (fun ifc => (ifc.filter (fun c => c.bInterfaceClass == PRINTER)).length != 0)) ≠ [] := by
          intro hnil
          rw [hnil] at h
          simp at h
        rcases List.exists_mem_of_ne_nil _ h1 with ⟨ifc, hifc⟩
        have hmem := List.mem_filter.mp hifc
        refine ⟨ifc, hmem.1, ?_⟩
        have h2 : (ifc.filter (fun c => c.bInterfaceClass == PRINTER)) ≠ [] := by
          intro hnil
          have := hmem.2
          rw [hnil] at this
          simp at this
        rcases List.exists_mem_of_ne_nil _ h2 with ⟨c, hc⟩
        have hcm := List.mem_filter.mp hc
        exact ⟨c, hcm.1, by simpa using hcm.2⟩
      · rintro ⟨-, cfg, hcfg', ifc, hifc, c, hc, hclass⟩
        cases hcfg'
        have hin : ifc ∈ ifaces.filter
            (fun ifc => (ifc.filter (fun c => c.bInterfaceClass == PRINTER)).length != 0) := by
          refine List.mem_filter.mpr ⟨hifc, ?_⟩
          have : c ∈ ifc.filter (fun c => c.bInterfaceClass == PRINTER) :=
            List.mem_filter.mpr ⟨hc, by simp [hclass]⟩
          simp [List.length_pos, List.ne_nil_of_mem this]
        simp [List.length_pos, List.ne_nil_of_mem hin]

/-- Claim C6: `findPrinter()` returns exactly the attached devices exposing at
least one interface whose class code equals `PRINTER` (0x07); a device whose
descriptor inspection throws is excluded, and the error never propagates
(`findPrinter` is total and returns a plain sublist). -/
theorem findPrinter_exact (devices : List UsbDevice) (d : UsbDevice) :
    d ∈ findPrinter devices ↔
      d ∈ devices ∧ d.descriptorThrows = false ∧
        ∃ cfg, d.configDescriptor = some cfg ∧
          ∃ ifc ∈ cfg, ∃ c ∈ ifc, c.bInterfaceClass = PRINTER := by
  unfold findPrinter
  rw [List.mem_filter, printerCheck_iff]

/-- Claim C9: when no attached device matches `(vid, pid)`, `getDevice`
resolves successfully with an absent value instead of rejecting. -/
theorem getDevice_no_match (devices : List UsbDevice) (vid pid : Nat)
    (h : ∀ d ∈ devices, ¬(d.vendorId = vid ∧ d.productId = pid)) :
    getDevice devices vid pid = Except.ok none := by
  have hfind : findByIds devices vid pid = none := by
    unfold findByIds
    rw [List.find?_eq_none]
    intro d hd
    have := h d hd
    simp only [Bool.and_eq_true, beq_iff_eq]
    tauto
  unfold getDevice
  rw [hfind]

/-- Witness for C9 at a concrete device list. -/
theorem getDevice_no_match_witness :
    getDevice [sampleDevice []] 1 2 = Except.ok none :=
  getDevice_no_match _ 1 2 (by decide)

theorem setOutSlot_endpoint_of_isSome (s : OpenState) (e : Ep)
    (h : s.endpoint.isSome) : (setOutSlot s e).endpoint = s.endpoint := by
  unfold setOutSlot
  rw [if_neg]
  rintro ⟨-, hn⟩
  rw [hn] at h
  simp at h

theorem setOutSlot_endpoint_no_out (s : OpenState) (e : Ep)
    (h : e.direction ≠ "out") : (setOutSlot s e).endpoint = s.endpoint := by
  unfold setOutSlot
  rw [if_neg]
  rintro ⟨hd, -⟩
  exact h hd

theorem setOutSlot_counter (s : OpenState) (e : Ep) :
    (setOutSlot s e).counter = s.counter := by
  unfold setOutSlot
  split <;> rfl

theorem setInSlot_endpoint (s : OpenState) (e : Ep) :
    (setInSlot s e).endpoint = s.endpoint := by
  unfold setInSlot
  split <;> rfl

theorem setInSlot_counter (s : OpenState) (e : Ep) :
    (setInSlot s e).counter = s.counter := by
  unfold setInSlot
  split <;> rfl

theorem assignStep_endpoint_of_isSome (s : OpenState) (e : Ep)
    (h : s.endpoint.isSome) : (assignStep s e).endpoint = s.endpoint := by
  unfold assignStep
  rw [setInSlot_endpoint, setOutSlot_endpoint_of_isSome s e h]

theorem assignStep_endpoint_no_out (s : OpenState) (e : Ep)
    (h : e.direction ≠ "out") : (assignStep s e).endpoint = s.endpoint := by
  unfold assignStep
  rw [setInSlot_endpoint, setOutSlot_endpoint_no_out s e h]

theorem assignStep_counter (s : OpenState) (e : Ep) :
    (assignStep s e).counter = s.counter := by
  unfold assignStep
  rw [setInSlot_counter, setOutSlot_counter]

theorem assignEndpoints_of_isSome (eps : List Ep) (s : OpenState)
    (h : s.endpoint.isSome) : (assignEndpoints s eps).endpoint = s.endpoint := by
  induction eps generalizing s with
  | nil => rfl
  | cons e rest ih =>
    show (assignEndpoints (assignStep s e) rest).endpoint = s.endpoint
    rw [ih _ (by rw [assignStep_endpoint_of_isSome s e h]; exact h),
      assignStep_endpoint_of_isSome s e h]

theorem assignEndpoints_no_out (eps : List Ep) (s : OpenState)
    (hout : ∀ e ∈ eps, e.direction ≠ "out") (h : s.endpoint = none) :
    (assignEndpoints s eps).endpoint = none := by
  induction eps generalizing s with
  | nil => exact h
  | cons e rest ih =>
    show (assignEndpoints (assignStep s e) rest).endpoint = none
    refine ih _ (fun e he => hout e (List.mem_cons_of_mem _ he)) ?_
    rw [assignStep_endpoint_no_out s e (hout e (List.mem_cons_self e rest))]
    exact h

theorem assignEndpoints_counter (eps : List Ep) (s : OpenState) :
    (assignEndpoints s eps).counter = s.counter := by
  induction eps generalizing s with
  | nil => rfl
  | cons e rest ih =>
    show (assignEndpoints (assignStep s e) rest).counter = s.counter
    rw [ih, assignStep_counter]

theorem kdLog_eq_logDetachError (platform : String) (ifc : Iface) (ev : OpenEv)
    (h : ev ∈ kdLog platform ifc) : ev = OpenEv.logDetachError := by
  unfold kdLog at h
  split at h
  · simpa using h
  · simp at h

theorem not_mem_kdLog (platform : String) (ifc : Iface) (ev : OpenEv)
    (h : ev ≠ OpenEv.logDetachError) : ev ∉ kdLog platform ifc :=
  fun hm => h (kdLog_eq_logDetachError platform ifc ev hm)

theorem count_kdLog_eq_zero (platform : String) (ifc : Iface) (ev : OpenEv)
    (h : ev ≠ OpenEv.logDetachError) : (kdLog platform ifc).count ev = 0 :=
  List.count_eq_zero.mpr (not_mem_kdLog platform ifc ev h)

theorem processIface_claim (platform : String) (total : Nat) (s : OpenState) (ifc : Iface)
    (h : ifc.claimThrows = true) :
    processIface platform total s ifc = (s, kdLog platform ifc ++ [OpenEv.cbClaimError]) := by
  unfold processIface
  rw [if_pos h]

theorem processIface_bound (platform : String) (total : Nat) (s : OpenState) (ifc : Iface)
    (hc : ifc.claimThrows = false)
    (hsome : (assignEndpoints s ifc.endpoints).endpoint.isSome = true) :
    processIface platform total s ifc =
      (assignEndpoints s ifc.endpoints,
        kdLog platform ifc ++ [OpenEv.emitConnect, OpenEv.cbOk]) := by
  simp only [processIface, hc, Bool.false_eq_true, if_false, hsome, if_true]

theorem processIface_last (platform : String) (total : Nat) (s : OpenState) (ifc : Iface)
    (hc : ifc.claimThrows = false)
    (hnone : (assignEndpoints s ifc.endpoints).endpoint = none)
    (htot : (assignEndpoints s ifc.endpoints).counter + 1 = total) :
    processIface platform total s ifc =
      ({ endpoint := (assignEndpoints s ifc.endpoints).endpoint,
         deviceToPcEndpoint := (assignEndpoints s ifc.endpoints).deviceToPcEndpoint,
         counter := (assignEndpoints s ifc.endpoints).counter + 1 },
        kdLog platform ifc ++ [OpenEv.cbEndpointNotFound]) := by
  simp only [processIface, hc, Bool.false_eq_true, if_false, hnone, Option.isSome_none,
    htot, and_true, if_true]

theorem processIface_mid (platform : String) (total : Nat) (s : OpenState) (ifc : Iface)
    (hc : ifc.claimThrows = false)
    (hnone : (assignEndpoints s ifc.endpoints).endpoint = none)
    (htot : (assignEndpoints s ifc.endpoints).counter + 1 ≠ total) :
    processIface platform total s ifc =
      ({ endpoint := (assignEndpoints s ifc.endpoints).endpoint,
         deviceToPcEndpoint := (assignEndpoints s ifc.endpoints).deviceToPcEndpoint,
         counter := (assignEndpoints s ifc.endpoints).counter + 1 },
        kdLog platform ifc) := by
  simp only [processIface, hc, Bool.false_eq_true, if_false, hnone, Option.isSome_none,
    htot, and_true, false_and, if_false]

theorem runInterfaces_no_out (platform : String) (total : Nat) (sch : List Iface)
    (s : OpenState)
    (hclaim : ∀ i ∈ sch, i.claimThrows = false)
    (hout : ∀ i ∈ sch, ∀ e ∈ i.endpoints, e.direction ≠ "out")
    (hend : s.endpoint = none) :
    (runInterfaces platform total s sch).1.endpoint = none ∧
      (runInterfaces platform total s sch).1.counter = s.counter + sch.length ∧
      OpenEv.emitConnect ∉ (runInterfaces platform total s sch).2 ∧
      OpenEv.cbOk ∉ (runInterfaces platform total s sch).2 ∧
      (OpenEv.cbEndpointNotFound ∈ (runInterfaces platform total s sch).2 ↔
        s.counter < total ∧ total ≤ s.counter + sch.length) := by
  induction sch generalizing s with
  | nil =>
    refine ⟨hend, by simp [runInterfaces], by simp [runInterfaces], by simp [runInterfaces], ?_⟩
    simp only [runInterfaces, List.not_mem_nil, false_iff, List.length_nil]
    omega
  | cons a rest ih =>
    have hca : a.claimThrows = false := hclaim a (List.mem_cons_self a rest)
    have hoa : ∀ e ∈ a.endpoints, e.direction ≠ "out" :=
      hout a (List.mem_cons_self a rest)
    have h1 : (assignEndpoints s a.endpoints).endpoint = none :=
      assignEndpoints_no_out _ _ hoa hend
    have hcnt : (assignEndpoints s a.endpoints).counter = s.counter :=
      assignEndpoints_counter _ _
    have hclaim' : ∀ i ∈ rest, i.claimThrows = false :=
      fun i hi => hclaim i (List.mem_cons_of_mem _ hi)
    have hout' : ∀ i ∈ rest, ∀ e ∈ i.endpoints, e.direction ≠ "out" :=
      fun i hi => hout i (List.mem_cons_of_mem _ hi)
    have ihr := ih ⟨(assignEndpoints s a.endpoints).endpoint,
      (assignEndpoints s a.endpoints).deviceToPcEndpoint,
      (assignEndpoints s a.endpoints).counter + 1⟩ hclaim' hout' h1
    have hmk : (⟨(assignEndpoints s a.endpoints).endpoint,
      (assignEndpoints s a.endpoints).deviceToPcEndpoint,
      (assignEndpoints s a.endpoints).counter + 1⟩ : OpenState).counter =
        (assignEndpoints s a.endpoints).counter + 1 := rfl
    rw [hmk] at ihr
    by_cases htot : (assignEndpoints s a.endpoints).counter + 1 = total
    · simp only [runInterfaces, processIface_last platform total s a hca h1 htot]
      refine ⟨ihr.1, ?_, ?_, ?_, ?_⟩
      · rw [ihr.2.1]
        simp only [List.length_cons]
        omega
      · have hr := ihr.2.2.1
        simp only [List.mem_append]
        rintro ((hm | hm) | hm)
        · exact not_mem_kdLog platform a _ (by decide) hm
        · simp at hm
        · exact hr hm
      · have hr := ihr.2.2.2.1
        simp only [List.mem_append]
        rintro ((hm | hm) | hm)
        · exact not_mem_kdLog platform a _ (by decide) hm
        · simp at hm
        · exact hr hm
      · simp only [List.mem_append, List.mem_singleton, List.length_cons]
        constructor
        · intro _
          omega
        · intro _
          exact Or.inl (Or.inr trivial)
    · simp only [runInterfaces, processIface_mid platform total s a hca h1 htot]
      refine ⟨ihr.1, ?_, ?_, ?_, ?_⟩
      · rw [ihr.2.1]
        simp only [List.length_cons]
        omega
      · have hr := ihr.2.2.1
        simp only [List.mem_append]
        rintro (hm | hm)
        · exact not_mem_kdLog platform a _ (by decide) hm
        · exact hr hm
      · have hr := ihr.2.2.2.1
        simp only [List.mem_append]
        rintro (hm | hm)
        · exact not_mem_kdLog platform a _ (by decide) hm
        · exact hr hm
      · have hiff := ihr.2.2.2.2
        simp only [List.mem_append, List.length_cons]
        constructor
        · rintro (hm | hm)
          · exact absurd (kdLog_eq_logDetachError platform a _ hm) (by decide)
          · have hx := hiff.mp hm
            omega
        · intro hr
          refine Or.inr (hiff.mpr ?_)
          omega

/-- Claim C5: on a device none of whose interfaces exposes an `"out"` endpoint,
once every interface has been processed (the completion counter reaching the
interface count), the open callback is invoked with the endpoint-not-found
error and `connect` is never emitted (nor is the callback ever invoked with
success). -/
theorem open_endpoint_not_found (platform : String) (d : UsbDevice) (sched : List Iface)
    (hperm : sched.Perm d.interfaces) (hne : sched ≠ [])
    (hopen : d.openThrows = false)
    (hclaim : ∀ i ∈ d.interfaces, i.claimThrows = false)
    (hout : ∀ i ∈ d.interfaces, ∀ e ∈ i.endpoints, e.direction ≠ "out") :
    openCall platform (some d) sched =
      Except.ok (runInterfaces platform d.interfaces.length initState sched) ∧
      OpenEv.cbEndpointNotFound ∈
        (runInterfaces platform d.interfaces.length initState sched).2 ∧
      OpenEv.emitConnect ∉ (runInterfaces platform d.interfaces.length initState sched).2 ∧
      OpenEv.cbOk ∉ (runInterfaces platform d.interfaces.length initState sched).2 := by
  have h1 : ∀ i ∈ sched, i.claimThrows = false := fun i hi => hclaim i (hperm.subset hi)
  have h2 : ∀ i ∈ sched, ∀ e ∈ i.endpoints, e.direction ≠ "out" :=
    fun i hi => hout i (hperm.subset hi)
  have hmain := runInterfaces_no_out platform d.interfaces.length sched initState h1 h2 rfl
  refine ⟨by simp [openCall, hopen], ?_, hmain.2.2.1, hmain.2.2.2.1⟩
  refine hmain.2.2.2.2.mpr ?_
  have hlen : sched.length = d.interfaces.length := hperm.length_eq
  have hpos : 0 < sched.length := List.length_pos.mpr hne
  have hcz : initState.counter = 0 := rfl
  omega

/-- Witness for C5: a device with a single interface holding only an `"in"`
endpoint. -/
theorem open_endpoint_not_found_witness :
    openCall "linux" (some dNoOut) [ifaceIn] =
      Except.ok (runInterfaces "linux" dNoOut.interfaces.length initState [ifaceIn]) ∧
      OpenEv.cbEndpointNotFound ∈
        (runInterfaces "linux" dNoOut.interfaces.length initState [ifaceIn]).2 ∧
      OpenEv.emitConnect ∉ (runInterfaces "linux" dNoOut.interfaces.length initState [ifaceIn]).2 ∧
      OpenEv.cbOk ∉ (runInterfaces "linux" dNoOut.interfaces.length initState [ifaceIn]).2 :=
  open_endpoint_not_found "linux" dNoOut [ifaceIn]
    (by decide) (by decide) (by decide) (by decide) (by decide)

/-- Claim C1 counterexample: on a two-interface device where the first
interface binds the write endpoint and the second interface's `claim()`
throws, the claim failure is still surfaced through the open callback
(`cbClaimError` is in the trace) even though an endpoint has been found — the
catch block invokes the callback unconditionally.  The trace also shows the
adapter did reach Open first (`connect` plus success callback). -/
theorem claim_error_after_bound_endpoint :
    openCall "linux" (some (sampleDevice [ifaceOut, ifaceBad])) [ifaceOut, ifaceBad] =
      Except.ok ({ endpoint := some epOut, deviceToPcEndpoint := none, counter := 0 },
        [OpenEv.emitConnect, OpenEv.cbOk, OpenEv.cbClaimError]) :=
  rfl

/-- Claim C1 (amended): a `claim()` failure on any interface always surfaces
through the open callback, whether or not a write endpoint has been bound on
another interface; when one has, the adapter has already reached Open
beforehand. -/
theorem open_claim_error_surfaces (platform : String) (total : Nat) (s : OpenState)
    (sch : List Iface) (i : Iface) (hi : i ∈ sch) (hc : i.claimThrows = true) :
    OpenEv.cbClaimError ∈ (runInterfaces platform total s sch).2 := by
  induction sch generalizing s with
  | nil => cases hi
  | cons a rest ih =>
    simp only [runInterfaces]
    rcases List.mem_cons.mp hi with h | h
    · subst h
      rw [processIface_claim platform total s i hc]
      simp
    · simp only [List.mem_append]
      exact Or.inr (ih _ h)

/-- Witness for the amended C1 at the two-interface counterexample device. -/
theorem open_claim_error_surfaces_witness :
    OpenEv.cbClaimError ∈ (runInterfaces "linux" 2 initState [ifaceOut, ifaceBad]).2 :=
  open_claim_error_surfaces "linux" 2 initState [ifaceOut, ifaceBad] ifaceBad
    (by decide) (by decide)

/-- Claim C2 counterexample: with two successfully claimed interfaces, the
first of which binds the write endpoint, `connect` is emitted twice — once by
each interface's completion — refuting "at most once". -/
theorem connect_emitted_twice :
    openCall "linux" (some (sampleDevice [ifaceOut, ifaceIn])) [ifaceOut, ifaceIn] =
      Except.ok ({ endpoint := some epOut, deviceToPcEndpoint := some epIn, counter := 0 },
        [OpenEv.emitConnect, OpenEv.cbOk, OpenEv.emitConnect, OpenEv.cbOk]) :=
  rfl

/-- Claim C2 (amended): once the write endpoint slot is bound, every further
interface whose `claim()` does not throw re-emits `connect` (and re-invokes the
callback with success): the number of `connect` emissions over the remaining
schedule equals the number of non-throwing interfaces in it. -/
theorem connect_reemitted (platform : String) (total : Nat) (s : OpenState)
    (sch : List Iface) (h : s.endpoint.isSome = true) :
    (runInterfaces platform total s sch).2.count OpenEv.emitConnect =
      (sch.filter (fun i => !i.claimThrows)).length := by
  induction sch generalizing s with
  | nil => simp [runInterfaces]
  | cons a rest ih =>
    simp only [runInterfaces]
    by_cases hc : a.claimThrows = true
    · rw [processIface_claim platform total s a hc]
      simp only [List.count_append, List.filter_cons, hc]
      rw [count_kdLog_eq_zero platform a _ (by decide)]
      have hz : ([OpenEv.cbClaimError] : List OpenEv).count OpenEv.emitConnect = 0 := by decide
      rw [hz, ih _ h]
      simp
    · have hc' : a.claimThrows = false := by
        cases hcb : a.claimThrows
        · rfl
        · exact absurd hcb hc
      have hsome : (assignEndpoints s a.endpoints).endpoint.isSome = true := by
        rw [assignEndpoints_of_isSome _ _ h]
        exact h
      rw [processIface_bound platform total s a hc' hsome]
      simp only [List.count_append, List.filter_cons, hc']
      rw [count_kdLog_eq_zero platform a _ (by decide)]
      have ho : ([OpenEv.emitConnect, OpenEv.cbOk] : List OpenEv).count OpenEv.emitConnect = 1 := by
        decide
      rw [ho, ih _ hsome]
      simp
      omega

/-- Witness for the amended C2: starting with a bound write endpoint, a
schedule with one clean interface and one throwing interface yields exactly
one further `connect`. -/
theorem connect_reemitted_witness :
    (runInterfaces "linux" 2
        { endpoint := some epOut, deviceToPcEndpoint := none, counter := 0 }
        [ifaceIn, ifaceBad]).2.count OpenEv.emitConnect =
      ([ifaceIn, ifaceBad].filter (fun i => !i.claimThrows)).length :=
  connect_reemitted "linux" 2
    { endpoint := some epOut, deviceToPcEndpoint := none, counter := 0 }
    [ifaceIn, ifaceBad] (by decide)

/-- Claim C4 counterexample: `open()` on an adapter whose device reference is
null throws a `TypeError` synchronously, and a host-level `device.open()`
failure also escapes synchronously — neither is delivered through the
callback. -/
theorem open_throws_sync_counterexample :
    openCall "linux" none [] = Except.error JsError.typeError ∧
      openCall "linux" (some dOpenFails) [] = Except.error JsError.deviceOpenFailed :=
  ⟨rfl, rfl⟩

/-- Claim C4 (amended): `open()` throws synchronously whenever the device
reference has been cleared (null) or the host-level device open fails; only
failures arising inside per-interface processing are delivered through the
callback. -/
theorem open_sync_throw (platform : String) (sched : List Iface) (d : UsbDevice)
    (h : d.openThrows = true) :
    openCall platform none sched = Except.error JsError.typeError ∧
      openCall platform (some d) sched = Except.error JsError.deviceOpenFailed :=
  ⟨rfl, by simp [openCall, h]⟩

/-- Witness for the amended C4. -/
theorem open_sync_throw_witness :
    openCall "linux" none [] = Except.error JsError.typeError ∧
      openCall "linux" (some dOpenFails) [] = Except.error JsError.deviceOpenFailed :=
  open_sync_throw "linux" [] dOpenFails (by decide)

/-- Claim C3 (code-bug evaluation): with a null device reference, `close()`
invokes its callback with success but — the guard lacking a `return` — then
still evaluates `this.device.close()` on null, so the callback is invoked a
second time with the resulting `TypeError`; the host-level release itself
never runs. -/
theorem close_null_device_trace :
    closeCall none = [CloseEv.cbOk, CloseEv.cbTypeError] ∧
      CloseEv.hostClose ∉ closeCall none := by
  decide

/-- Claim C7 (code-bug evaluation): a detach notification for the owned device
emits `detach` then `disconnect` and clears the reference, and one for a
different device has no effect; but the subsequent `close()` on the cleared
reference is not a clean no-op — after the success callback it reports a
`TypeError` through the callback as well. -/
theorem detach_owned_then_close_trace :
    onDetach (some (sampleDevice [ifaceOut])) (sampleDevice [ifaceOut]) =
      (none, [LifeEv.emitDetach, LifeEv.emitDisconnect]) ∧
      onDetach (some (sampleDevice [ifaceOut])) (sampleDevice [ifaceIn]) =
        (some (sampleDevice [ifaceOut]), []) ∧
      closeCall none = [CloseEv.cbOk, CloseEv.cbTypeError] := by
  decide

/-- Claim C8: a `write()` on an adapter with a bound write endpoint whose bulk
transfer succeeds emits the `data` event carrying exactly the payload before
the transfer is performed, and the callback is invoked with no error. -/
theorem write_success_trace (e : Ep) (data : ByteData) :
    writeCall (some e) none data =
      ([WriteEv.emitData data, WriteEv.transferOut data, WriteEv.cb none], none) :=
  rfl

/-- Claim C10: a `write()` before any write endpoint is bound still emits the
`data` event with the payload, then throws a `TypeError` from accessing the
unset endpoint; the callback is never invoked at all (in particular not with a
NotOpen error). -/
theorem write_unbound_trace (transferResult : Option Nat) (data : ByteData) :
    writeCall none transferResult data = ([WriteEv.emitData data], some JsError.typeError) ∧
      ∀ e, WriteEv.cb e ∉ (writeCall none transferResult data).1 := by
  refine ⟨rfl, ?_⟩
  intro e hm
  simp [writeCall] at hm

end EscposUsb
